import Mathlib

/-!
Verification of the pms7003 sensor library: a shallow embedding of the
streaming frame decoder (`parse_data` / `parse`, built on the nom streaming
`tag`, `be_u16`, `take` and `alt` combinators), of the per-read inner loop
of `read_active`, and of the AQI interpolation function `calculate_aqi`.

Bytes are modelled as `Nat` (values below 256 on the wire), byte buffers as
`List Nat`, `f64` arithmetic as exact `ℚ` arithmetic, and `usize` underflow
followed by an out-of-range index (a Rust panic either way) as `Option.none`.
-/

/-- Result of comparing an input buffer against a tag, mirroring the nom
`Compare for &[u8]` implementation: the first `min` lengths bytes are compared; a mismatch is
an error, a matching proper-prefix input is incomplete, otherwise ok. -/
inductive CompareResult where
  | ok : CompareResult
  | needMore : CompareResult
  | mismatch : CompareResult
deriving DecidableEq, Repr

/-- Walks the input against the tag byte by byte (the nom `compare`):
if the tag is exhausted the comparison succeeded; if the input is exhausted
first it is a matching proper prefix; otherwise compare heads. -/
def compareTag : List Nat → List Nat → CompareResult
  | _, [] => .ok
  | [], _ :: _ => .needMore
  | a :: as, b :: bs => if a = b then compareTag as bs else .mismatch

/-- Errors of a streaming nom parser: `incomplete n` is `Err::Incomplete
(Needed::new n)` and `failed` is `Err::Error`. -/
inductive NomErr where
  | incomplete : Nat → NomErr
  | failed : NomErr
deriving DecidableEq, Repr

/-- The decoded sensor record `PmsData` of the Rust source: fifteen unsigned
16-bit fields (modelled as `Nat`) read in fixed order after the marker. -/
structure PmsData where
  frame_length : Nat
  pm1_cf1 : Nat
  pm2_5_cf1 : Nat
  pm10_cf1 : Nat
  pm1_atmo : Nat
  pm2_5_atmo : Nat
  pm10_atmo : Nat
  pm0_3_count : Nat
  pm0_5_count : Nat
  pm1_0_count : Nat
  pm2_5_count : Nat
  pm5_0_count : Nat
  pm10_0_count : Nat
  reserved : Nat
  checksum : Nat
deriving DecidableEq, Repr

/-- The start marker `"\x42\x4d"` of the Rust source. -/
def START_MARKER : List Nat := [0x42, 0x4d]

/-- The nom streaming `tag t`: on a full match split off `t.length` bytes; on a
matching proper prefix report `Incomplete (t.length - input.length)`; on a
mismatch report `Err::Error`. -/
def tagP (t : List Nat) (input : List Nat) : Except NomErr (List Nat × List Nat) :=
  match compareTag input t with
  | .ok => .ok (input.drop t.length, input.take t.length)
  | .needMore => .error (.incomplete (t.length - input.length))
  | .mismatch => .error .failed

/-- The nom streaming `be_u16`: with at least two bytes available return the
big-endian 16-bit value and the rest; otherwise report `Incomplete
(2 - input.length)`. -/
def be_u16 (input : List Nat) : Except NomErr (List Nat × Nat) :=
  match input with
  | b1 :: b2 :: rest => .ok (rest, b1 * 256 + b2)
  | _ => .error (.incomplete (2 - input.length))

/-- The nom streaming `take 1`: split off one byte when available, otherwise
report `Incomplete 1`. -/
def take1 (input : List Nat) : Except NomErr (List Nat × List Nat) :=
  match input with
  | [] => .error (.incomplete 1)
  | b :: rest => .ok (rest, [b])

/-- The `parse_data` parser of the source: the start marker followed by
fifteen big-endian 16-bit fields, mapped onto a `PmsData` record. The `tuple`
combinator threads the parsers in sequence, propagating the first error. -/
def parse_data (input : List Nat) : Except NomErr (List Nat × PmsData) :=
  match tagP START_MARKER input with
  | .error e => .error e
  | .ok (i0, _start_marker) =>
  match be_u16 i0 with
  | .error e => .error e
  | .ok (i1, frame_length) =>
  match be_u16 i1 with
  | .error e => .error e
  | .ok (i2, data1) =>
  match be_u16 i2 with
  | .error e => .error e
  | .ok (i3, data2) =>
  match be_u16 i3 with
  | .error e => .error e
  | .ok (i4, data3) =>
  match be_u16 i4 with
  | .error e => .error e
  | .ok (i5, data4) =>
  match be_u16 i5 with
  | .error e => .error e
  | .ok (i6, data5) =>
  match be_u16 i6 with
  | .error e => .error e
  | .ok (i7, data6) =>
  match be_u16 i7 with
  | .error e => .error e
  | .ok (i8, data7) =>
  match be_u16 i8 with
  | .error e => .error e
  | .ok (i9, data8) =>
  match be_u16 i9 with
  | .error e => .error e
  | .ok (i10, data9) =>
  match be_u16 i10 with
  | .error e => .error e
  | .ok (i11, data10) =>
  match be_u16 i11 with
  | .error e => .error e
  | .ok (i12, data11) =>
  match be_u16 i12 with
  | .error e => .error e
  | .ok (i13, data12) =>
  match be_u16 i13 with
  | .error e => .error e
  | .ok (i14, data13) =>
  match be_u16 i14 with
  | .error e => .error e
  | .ok (i15, checksum) =>
  .ok (i15,
    { frame_length := frame_length
      pm1_cf1 := data1
      pm2_5_cf1 := data2
      pm10_cf1 := data3
      pm1_atmo := data4
      pm2_5_atmo := data5
      pm10_atmo := data6
      pm0_3_count := data7
      pm0_5_count := data8
      pm1_0_count := data9
      pm2_5_count := data10
      pm5_0_count := data11
      pm10_0_count := data12
      reserved := data13
      checksum := checksum })

/-- The public `parse` of the source:
`alt((map(parse_data, Some), map(take(1), |_| None)))`. The nom `alt` tries the
next alternative only on `Err::Error`; `Incomplete` is returned unchanged. -/
def parse (input : List Nat) : Except NomErr (List Nat × Option PmsData) :=
  match parse_data input with
  | .ok (rem, d) => .ok (rem, some d)
  | .error (.incomplete n) => .error (.incomplete n)
  | .error .failed =>
    match take1 input with
    | .ok (rem, _) => .ok (rem, none)
    | .error e => .error e

/-- The GOLDEN_PACKET test vector of the source. -/
def GOLDEN_PACKET : List Nat :=
  [0x42, 0x4d, 0x00, 0x1c, 0x00, 0x03, 0x00, 0x04, 0x00, 0x07, 0x00, 0x03,
   0x00, 0x04, 0x00, 0x07, 0x02, 0xd0, 0x00, 0xb8, 0x00, 0x19, 0x00, 0x08,
   0x00, 0x04, 0x00, 0x02, 0x97, 0x00, 0x03, 0x0f]

/-- The `PmsData` value that the source test `test_parse_data` expects for
`GOLDEN_PACKET`. -/
def goldenData : PmsData :=
  { frame_length := 28
    pm1_cf1 := 3
    pm2_5_cf1 := 4
    pm10_cf1 := 7
    pm1_atmo := 3
    pm2_5_atmo := 4
    pm10_atmo := 7
    pm0_3_count := 720
    pm0_5_count := 184
    pm1_0_count := 25
    pm2_5_count := 8
    pm5_0_count := 4
    pm10_0_count := 2
    reserved := 38656
    checksum := 783 }

example : parse GOLDEN_PACKET = .ok ([], some goldenData) := rfl

example : parse [0x42, 0x4d] = .error (.incomplete 2) := rfl

example : parse [0x61, 0x62, 0x63] = .ok ([0x62, 0x63], none) := rfl

example : parse [] = .error (.incomplete 2) := rfl

example : parse [0x42] = .error (.incomplete 1) := rfl

/-- A successful tag comparison needs the whole tag to be present. -/
lemma compareTag_ok_length : ∀ {input t : List Nat},
    compareTag input t = .ok → t.length ≤ input.length := by
  intro input t
  induction t generalizing input with
  | nil => intro _; simp
  | cons b bs ih =>
    intro h
    match input with
    | [] => simp [compareTag] at h
    | a :: as =>
      rw [compareTag] at h
      split at h
      · simpa using Nat.succ_le_succ (ih h)
      · cases h

/-- A successful `tag` consumes exactly the length of the tag. -/
lemma tagP_ok_length {t input rem m : List Nat} (h : tagP t input = .ok (rem, m)) :
    input.length = rem.length + t.length := by
  unfold tagP at h
  split at h
  next hcmp =>
    have hle : t.length ≤ input.length := compareTag_ok_length hcmp
    simp only [Except.ok.injEq, Prod.mk.injEq] at h
    obtain ⟨h1, -⟩ := h
    subst h1
    simp [List.length_drop]
    omega
  next => exact absurd h (by simp)
  next => exact absurd h (by simp)

/-- A successful `be_u16` consumes exactly two bytes. -/
lemma be_u16_ok_length : ∀ {input rem : List Nat} {v : Nat},
    be_u16 input = .ok (rem, v) → input.length = rem.length + 2 := by
  intro input rem v h
  match input with
  | [] => simp [be_u16] at h
  | [b] => simp [be_u16] at h
  | b1 :: b2 :: t =>
    simp only [be_u16, Except.ok.injEq, Prod.mk.injEq] at h
    obtain ⟨h1, -⟩ := h
    subst h1
    simp

/-- A successful `take 1` consumes exactly one byte. -/
lemma take1_ok_length : ∀ {input rem m : List Nat},
    take1 input = .ok (rem, m) → input.length = rem.length + 1 := by
  intro input rem m h
  match input with
  | [] => simp [take1] at h
  | b :: t =>
    simp only [take1, Except.ok.injEq, Prod.mk.injEq] at h
    obtain ⟨h1, -⟩ := h
    subst h1
    simp

/-- A successful `parse_data` consumes exactly the 32 frame bytes. -/
lemma parse_data_ok_length {input rem : List Nat} {d : PmsData}
    (h : parse_data input = .ok (rem, d)) : input.length = rem.length + 32 := by
  unfold parse_data at h
  split at h
  next => exact absurd h (by simp)
  next i0 sm htag =>
  split at h
  next => exact absurd h (by simp)
  next i1 v1 hb1 =>
  split at h
  next => exact absurd h (by simp)
  next i2 v2 hb2 =>
  split at h
  next => exact absurd h (by simp)
  next i3 v3 hb3 =>
  split at h
  next => exact absurd h (by simp)
  next i4 v4 hb4 =>
  split at h
  next => exact absurd h (by simp)
  next i5 v5 hb5 =>
  split at h
  next => exact absurd h (by simp)
  next i6 v6 hb6 =>
  split at h
  next => exact absurd h (by simp)
  next i7 v7 hb7 =>
  split at h
  next => exact absurd h (by simp)
  next i8 v8 hb8 =>
  split at h
  next => exact absurd h (by simp)
  next i9 v9 hb9 =>
  split at h
  next => exact absurd h (by simp)
  next i10 v10 hb10 =>
  split at h
  next => exact absurd h (by simp)
  next i11 v11 hb11 =>
  split at h
  next => exact absurd h (by simp)
  next i12 v12 hb12 =>
  split at h
  next => exact absurd h (by simp)
  next i13 v13 hb13 =>
  split at h
  next => exact absurd h (by simp)
  next i14 v14 hb14 =>
  split at h
  next => exact absurd h (by simp)
  next i15 v15 hb15 =>
  simp only [Except.ok.injEq, Prod.mk.injEq] at h
  obtain ⟨hrem, -⟩ := h
  subst hrem
  have l0 := tagP_ok_length htag
  have l1 := be_u16_ok_length hb1
  have l2 := be_u16_ok_length hb2
  have l3 := be_u16_ok_length hb3
  have l4 := be_u16_ok_length hb4
  have l5 := be_u16_ok_length hb5
  have l6 := be_u16_ok_length hb6
  have l7 := be_u16_ok_length hb7
  have l8 := be_u16_ok_length hb8
  have l9 := be_u16_ok_length hb9
  have l10 := be_u16_ok_length hb10
  have l11 := be_u16_ok_length hb11
  have l12 := be_u16_ok_length hb12
  have l13 := be_u16_ok_length hb13
  have l14 := be_u16_ok_length hb14
  have l15 := be_u16_ok_length hb15
  simp only [START_MARKER, List.length_cons, List.length_nil] at l0
  omega

/-- A successful `parse` consumes exactly one byte on a skip and exactly the
32 frame bytes on a decoded frame. -/
lemma parse_ok_length {input rem : List Nat} {od : Option PmsData}
    (h : parse input = .ok (rem, od)) :
    (od = none → input.length = rem.length + 1) ∧
      (∀ d, od = some d → input.length = rem.length + 32) := by
  unfold parse at h
  split at h
  next rem' d' hpd =>
    simp only [Except.ok.injEq, Prod.mk.injEq] at h
    obtain ⟨h1, h2⟩ := h
    subst h1; subst h2
    refine ⟨by simp, fun d hd => ?_⟩
    exact parse_data_ok_length hpd
  next => exact absurd h (by simp)
  next =>
    split at h
    next rem' m' ht1 =>
      simp only [Except.ok.injEq, Prod.mk.injEq] at h
      obtain ⟨h1, h2⟩ := h
      subst h1; subst h2
      exact ⟨fun _ => take1_ok_length ht1, by simp⟩
    next => exact absurd h (by simp)

/-- Any successful `parse` strictly shrinks the buffer. -/
lemma parse_ok_length_lt {input rem : List Nat} {od : Option PmsData}
    (h : parse input = .ok (rem, od)) : rem.length < input.length := by
  obtain ⟨h1, h2⟩ := parse_ok_length h
  cases od with
  | none => have := h1 rfl; omega
  | some d => have := h2 d rfl; omega

/-- The `parse` alternation never surfaces `Err::Error`: its second branch,
`take 1`, only fails with `Incomplete` on an empty buffer. -/
lemma parse_ne_failed (input : List Nat) : parse input ≠ .error .failed := by
  unfold parse
  split
  · simp
  · simp
  · cases input <;> simp [take1]


/-- Mismatch of the first byte: `tag` fails with `Err::Error` immediately. -/
lemma parse_data_mismatch1 {b : Nat} (rest : List Nat) (hb : b ≠ 0x42) :
    parse_data (b :: rest) = .error .failed := by
  have hc : compareTag (b :: rest) START_MARKER = .mismatch := by
    simp [compareTag, START_MARKER, hb]
  simp [parse_data, tagP, hc]

/-- Mismatch of the second byte: `tag` fails with `Err::Error`. -/
lemma parse_data_mismatch2 {b : Nat} (rest : List Nat) (hb : b ≠ 0x4d) :
    parse_data (0x42 :: b :: rest) = .error .failed := by
  have hc : compareTag (0x42 :: b :: rest) START_MARKER = .mismatch := by
    simp [compareTag, START_MARKER, hb]
  simp [parse_data, tagP, hc]

/-- A buffer whose first byte rules out the marker is skipped: `parse`
consumes exactly that one byte. -/
lemma parse_skip1 {b : Nat} (rest : List Nat) (hb : b ≠ 0x42) :
    parse (b :: rest) = .ok (rest, none) := by
  simp [parse, parse_data_mismatch1 rest hb, take1]

/-- A buffer whose second byte rules out the marker is skipped: `parse`
consumes exactly one byte (the `0x42`). -/
lemma parse_skip2 {b : Nat} (rest : List Nat) (hb : b ≠ 0x4d) :
    parse (0x42 :: b :: rest) = .ok (b :: rest, none) := by
  simp [parse, parse_data_mismatch2 rest hb, take1]

/-- On a marker-prefixed buffer holding fewer than the 32 frame bytes,
`parse` reports `Incomplete` with the byte count the current two-byte token
still needs: 2 when whole 16-bit fields remain (even remainder), 1 when a
field is split (odd remainder). -/
lemma parse_marker_incomplete : ∀ (rest : List Nat), rest.length < 30 →
    parse (START_MARKER ++ rest) = .error (.incomplete (2 - rest.length % 2)) := by
  intro rest h
  rcases rest with _ | ⟨b1, _ | ⟨b2, _ | ⟨b3, _ | ⟨b4, _ | ⟨b5, _ | ⟨b6, _ | ⟨b7, _ | ⟨b8, _ | ⟨b9, _ | ⟨b10, _ | ⟨b11, _ | ⟨b12, _ | ⟨b13, _ | ⟨b14, _ | ⟨b15, _ | ⟨b16, _ | ⟨b17, _ | ⟨b18, _ | ⟨b19, _ | ⟨b20, _ | ⟨b21, _ | ⟨b22, _ | ⟨b23, _ | ⟨b24, _ | ⟨b25, _ | ⟨b26, _ | ⟨b27, _ | ⟨b28, _ | ⟨b29, _ | ⟨b30, t⟩⟩⟩⟩⟩⟩⟩⟩⟩⟩⟩⟩⟩⟩⟩⟩⟩⟩⟩⟩⟩⟩⟩⟩⟩⟩⟩⟩⟩⟩
  all_goals first
    | (simp only [List.length_cons] at h; omega)
    | (norm_num; rfl)

/-- A marker-prefixed buffer with at least 30 further bytes decodes those 30
bytes as fifteen big-endian 16-bit fields in the fixed order, leaving the
rest of the buffer as remainder. -/
lemma parse_frame (b1 b2 b3 b4 b5 b6 b7 b8 b9 b10 b11 b12 b13 b14 b15 b16 b17 b18 b19 b20 b21 b22 b23 b24 b25 b26 b27 b28 b29 b30 : Nat)
    (rest : List Nat) :
    parse (0x42 :: 0x4d :: b1 :: b2 :: b3 :: b4 :: b5 :: b6 :: b7 :: b8 :: b9 :: b10 :: b11 :: b12 :: b13 :: b14 :: b15 :: b16 :: b17 :: b18 :: b19 :: b20 :: b21 :: b22 :: b23 :: b24 :: b25 :: b26 :: b27 :: b28 :: b29 :: b30 :: rest) =
      .ok (rest, some {
        frame_length := b1 * 256 + b2,
        pm1_cf1 := b3 * 256 + b4,
        pm2_5_cf1 := b5 * 256 + b6,
        pm10_cf1 := b7 * 256 + b8,
        pm1_atmo := b9 * 256 + b10,
        pm2_5_atmo := b11 * 256 + b12,
        pm10_atmo := b13 * 256 + b14,
        pm0_3_count := b15 * 256 + b16,
        pm0_5_count := b17 * 256 + b18,
        pm1_0_count := b19 * 256 + b20,
        pm2_5_count := b21 * 256 + b22,
        pm5_0_count := b23 * 256 + b24,
        pm10_0_count := b25 * 256 + b26,
        reserved := b27 * 256 + b28,
        checksum := b29 * 256 + b30 }) := rfl

/-- Inner loop of `read_active` on the buffer of one read: repeatedly `parse` the
shrinking remainder, collecting decoded frames in arrival order, skipping one
byte on a non-marker, and stopping at the first `Incomplete` (or other error)
with the unconsumed remainder. Totality follows from every successful `parse`
strictly shrinking the buffer. -/
def drain (input : List Nat) : List PmsData × List Nat :=
  match h : parse input with
  | .ok (rem, some d) =>
    let r := drain rem
    (d :: r.1, r.2)
  | .ok (rem, none) => drain rem
  | .error _ => ([], input)
termination_by input.length
decreasing_by
  · exact parse_ok_length_lt h
  · exact parse_ok_length_lt h

/-- One unfolding step of `drain`: a parse error (including `Incomplete`)
stops the loop, keeping the buffer. -/
lemma drain_error {input : List Nat} {e : NomErr} (h : parse input = .error e) :
    drain input = ([], input) := by
  rw [drain]
  split <;> simp_all

/-- One unfolding step of `drain`: a decoded frame is delivered and the loop
continues on the remainder. -/
lemma drain_frame {input rem : List Nat} {d : PmsData}
    (h : parse input = .ok (rem, some d)) :
    drain input = (d :: (drain rem).1, (drain rem).2) := by
  rw [drain]
  split <;> simp_all

/-- One unfolding step of `drain`: a skipped byte delivers nothing. -/
lemma drain_skip {input rem : List Nat} (h : parse input = .ok (rem, none)) :
    drain input = drain rem := by
  rw [drain]
  split <;> simp_all

/-- A buffer containing no `0x42` at all is skipped byte by byte and fully
consumed, delivering no frame. -/
lemma drain_no_marker : ∀ {l : List Nat}, (∀ b ∈ l, b ≠ 0x42) →
    drain l = ([], []) := by
  intro l h
  induction l with
  | nil =>
    have hnil : parse ([] : List Nat) = .error (.incomplete 2) := rfl
    exact drain_error hnil
  | cons b t ih =>
    have hb : b ≠ 0x42 := h b (List.mem_cons_self b t)
    rw [drain_skip (parse_skip1 t hb)]
    exact ih fun x hx => h x (List.mem_cons_of_mem b hx)

/-- The read loop of `read_active` as a function of the byte counts handed
back by successive `port.read` calls: the bytes of each read are processed from
scratch by the inner loop (`drain`) and the unconsumed remainder is
discarded when the outer loop reads into the buffer again; the frames of all
reads are delivered to the callback in order. -/
def read_frames (chunks : List (List Nat)) : List PmsData :=
  (chunks.map fun chunk => (drain chunk).1).flatten

/-- First half of `GOLDEN_PACKET` (16 bytes). -/
def goldenFirstHalf : List Nat :=
  [0x42, 0x4d, 0x00, 0x1c, 0x00, 0x03, 0x00, 0x04, 0x00, 0x07, 0x00, 0x03,
   0x00, 0x04, 0x00, 0x07]

/-- Second half of `GOLDEN_PACKET` (16 bytes); it contains no `0x42`. -/
def goldenSecondHalf : List Nat :=
  [0x02, 0xd0, 0x00, 0xb8, 0x00, 0x19, 0x00, 0x08, 0x00, 0x04, 0x00, 0x02,
   0x97, 0x00, 0x03, 0x0f]

lemma golden_split : goldenFirstHalf ++ goldenSecondHalf = GOLDEN_PACKET := rfl

lemma drain_goldenFirstHalf : drain goldenFirstHalf = ([], goldenFirstHalf) := by
  have h : parse goldenFirstHalf = .error (.incomplete 2) := rfl
  exact drain_error h

lemma drain_goldenSecondHalf : drain goldenSecondHalf = ([], []) :=
  drain_no_marker (by decide)

lemma drain_golden : drain GOLDEN_PACKET = ([goldenData], []) := by
  have h1 : parse GOLDEN_PACKET = .ok ([], some goldenData) := rfl
  rw [drain_frame h1]
  have h2 : parse ([] : List Nat) = .error (.incomplete 2) := rfl
  rw [drain_error h2]

/-- The AQI output ranges, the `AQI_RANGES` constant of the source. -/
def AQI_RANGES : List (ℚ × ℚ) :=
  [(0, 50), (51, 100), (101, 150), (151, 200), (201, 300), (301, 400),
   (401, 500)]

/-- The PM2.5 concentration breakpoints of the source. -/
def AQI_PM2_5_BREAKPOINTS : List (ℚ × ℚ) :=
  [(0, 12), (12.1, 35.4), (35.5, 55.4), (55.5, 150.4), (150.5, 250.4),
   (250.5, 350.4), (350.5, 500.4)]

/-- The PM10.0 concentration breakpoints of the source. -/
def AQI_PM10_0_BREAKPOINTS : List (ℚ × ℚ) :=
  [(0, 54), (55, 154), (155, 254), (255, 354), (355, 424), (425, 504),
   (505, 604)]

/-- The Rust `f64::round`: round half away from zero, modelled exactly on ℚ. -/
def roundHalfAway (x : ℚ) : ℤ :=
  if x < 0 then -⌊-x + 1 / 2⌋ else ⌊x + 1 / 2⌋

/-- The rounding step `(data * 10.0).round() / 10.0` of `calculate_aqi`. -/
def round_nearest_tenth (data : ℚ) : ℚ :=
  (roundHalfAway (data * 10) : ℚ) / 10

/-- The Rust `slice::partition_point`: on a slice partitioned by `p` (all
`true` before all `false`, which holds for the ascending breakpoint tables)
its binary search returns the length of the leading `true` prefix. -/
def partition_point (p : α → Bool) (l : List α) : Nat :=
  (l.takeWhile p).length

/-- The bucket lookup of `calculate_aqi`:
`breakpoints.partition_point(|(low, _high)| data_nearest_tenth > *low)`. -/
def bucket_pp (breakpoints : List (ℚ × ℚ)) (t : ℚ) : Nat :=
  partition_point (fun p => decide (t > p.1)) breakpoints

/-- The clamp bound `AQI_RANGES[AQI_RANGES.len() - 1].1` of the source, the
high end of the last AQI range. -/
def aqi_clamp_max : ℚ := (AQI_RANGES.getD (AQI_RANGES.length - 1) (0, 0)).2

/-- Function `calculate_aqi` of the source. `data <= 0.0` yields `0.0`; otherwise the
concentration is rounded to the nearest tenth and the bucket is
`partition_point(|(low, _high)| data_nearest_tenth > *low) - 1`. The source
computes that `- 1` on `usize`: when `partition_point` returns `0` the
subtraction underflows (a panic in a debug build; in a release build it
wraps to `usize::MAX` and the index `breakpoints[index]` panics), modelled
here as `none`, as is any out-of-range index. The interpolated value is
clamped by `.min(AQI_RANGES[AQI_RANGES.len() - 1].1)`. -/
def calculate_aqi (breakpoints : List (ℚ × ℚ)) (data : ℚ) : Option ℚ :=
  if data ≤ 0 then some 0
  else
    let data_nearest_tenth := round_nearest_tenth data
    let pp := bucket_pp breakpoints data_nearest_tenth
    if pp = 0 then none
    else
      match breakpoints.get? (pp - 1), AQI_RANGES.get? (pp - 1) with
      | some breakpoint, some range =>
        some (min
          ((range.2 - range.1) / (breakpoint.2 - breakpoint.1) *
            (data_nearest_tenth - breakpoint.1) + range.1)
          aqi_clamp_max)
      | _, _ => none

example : calculate_aqi AQI_PM2_5_BREAKPOINTS (-1) = some 0 := by
  norm_num [calculate_aqi]

example : calculate_aqi AQI_PM2_5_BREAKPOINTS 37 = some (20834 / 199) := by
  norm_num [calculate_aqi, bucket_pp, round_nearest_tenth, roundHalfAway,
    partition_point, AQI_PM2_5_BREAKPOINTS, AQI_RANGES, aqi_clamp_max,
    List.takeWhile]

example : calculate_aqi AQI_PM2_5_BREAKPOINTS 1000000 = some 500 := by
  norm_num [calculate_aqi, bucket_pp, round_nearest_tenth, roundHalfAway,
    partition_point, AQI_PM2_5_BREAKPOINTS, AQI_RANGES, aqi_clamp_max,
    List.takeWhile]

example : calculate_aqi AQI_PM2_5_BREAKPOINTS (1 / 25) = none := by
  norm_num [calculate_aqi, bucket_pp, round_nearest_tenth, roundHalfAway,
    partition_point, AQI_PM2_5_BREAKPOINTS, List.takeWhile]

/-- Rounding a positive concentration to the nearest tenth never goes
negative. -/
lemma round_nearest_tenth_nonneg {d : ℚ} (hd : 0 < d) :
    0 ≤ round_nearest_tenth d := by
  unfold round_nearest_tenth roundHalfAway
  rw [if_neg (by linarith : ¬ d * 10 < 0)]
  have hfl : (0:ℤ) ≤ ⌊d * 10 + 1 / 2⌋ := Int.floor_nonneg.mpr (by linarith)
  have : (0:ℚ) ≤ (⌊d * 10 + 1 / 2⌋ : ℚ) := by exact_mod_cast hfl
  linarith

/-- The clamp bound is 500. -/
lemma aqi_last_high : aqi_clamp_max = 500 := rfl

/-- Which bucket `partition_point` selects on the PM2.5 table, by the
position of the rounded value among the ascending `low` bounds. -/
lemma pm25_partition (t : ℚ) (ht : 0 < t) :
    (bucket_pp AQI_PM2_5_BREAKPOINTS t = 1 ∧ t ≤ 12.1) ∨
    (bucket_pp AQI_PM2_5_BREAKPOINTS t = 2 ∧ 12.1 < t ∧ t ≤ 35.5) ∨
    (bucket_pp AQI_PM2_5_BREAKPOINTS t = 3 ∧ 35.5 < t ∧ t ≤ 55.5) ∨
    (bucket_pp AQI_PM2_5_BREAKPOINTS t = 4 ∧ 55.5 < t ∧ t ≤ 150.5) ∨
    (bucket_pp AQI_PM2_5_BREAKPOINTS t = 5 ∧ 150.5 < t ∧ t ≤ 250.5) ∨
    (bucket_pp AQI_PM2_5_BREAKPOINTS t = 6 ∧ 250.5 < t ∧ t ≤ 350.5) ∨
    (bucket_pp AQI_PM2_5_BREAKPOINTS t = 7 ∧ 350.5 < t) := by
  by_cases h1 : (12.1:ℚ) < t
  · by_cases h2 : (35.5:ℚ) < t
    · by_cases h3 : (55.5:ℚ) < t
      · by_cases h4 : (150.5:ℚ) < t
        · by_cases h5 : (250.5:ℚ) < t
          · by_cases h6 : (350.5:ℚ) < t
            · refine Or.inr (Or.inr (Or.inr (Or.inr (Or.inr (Or.inr ⟨?_, h6⟩)))))
              simp [bucket_pp, partition_point, AQI_PM2_5_BREAKPOINTS,
                List.takeWhile, ht, h1, h2, h3, h4, h5, h6]
            · refine Or.inr (Or.inr (Or.inr (Or.inr (Or.inr (Or.inl
                ⟨?_, h5, le_of_not_lt h6⟩)))))
              simp [bucket_pp, partition_point, AQI_PM2_5_BREAKPOINTS,
                List.takeWhile, ht, h1, h2, h3, h4, h5, h6]
          · refine Or.inr (Or.inr (Or.inr (Or.inr (Or.inl
              ⟨?_, h4, le_of_not_lt h5⟩))))
            simp [bucket_pp, partition_point, AQI_PM2_5_BREAKPOINTS,
              List.takeWhile, ht, h1, h2, h3, h4, h5]
        · refine Or.inr (Or.inr (Or.inr (Or.inl ⟨?_, h3, le_of_not_lt h4⟩)))
          simp [bucket_pp, partition_point, AQI_PM2_5_BREAKPOINTS,
            List.takeWhile, ht, h1, h2, h3, h4]
      · refine Or.inr (Or.inr (Or.inl ⟨?_, h2, le_of_not_lt h3⟩))
        simp [bucket_pp, partition_point, AQI_PM2_5_BREAKPOINTS,
          List.takeWhile, ht, h1, h2, h3]
    · refine Or.inr (Or.inl ⟨?_, h1, le_of_not_lt h2⟩)
      simp [bucket_pp, partition_point, AQI_PM2_5_BREAKPOINTS,
        List.takeWhile, ht, h1, h2]
  · refine Or.inl ⟨?_, le_of_not_lt h1⟩
    simp [bucket_pp, partition_point, AQI_PM2_5_BREAKPOINTS,
      List.takeWhile, ht, h1]

/-- A rounded value of zero makes `partition_point` return 0 on the PM2.5
table and the index subtraction underflow: the modelled result is `none`. -/
lemma calculate_aqi_pm25_zero_round {d : ℚ} (hd : 0 < d)
    (htz : round_nearest_tenth d = 0) :
    calculate_aqi AQI_PM2_5_BREAKPOINTS d = none := by
  simp [calculate_aqi, not_le.2 hd, htz, bucket_pp, partition_point,
    AQI_PM2_5_BREAKPOINTS, List.takeWhile]

/-- C4: decoding the golden 32-byte buffer returns the frame with
frame_length=28, pm1_cf1=3, pm2_5_cf1=4, pm10_cf1=7, pm1_atmo=3,
pm2_5_atmo=4, pm10_atmo=7, pm0_3_count=720, pm0_5_count=184, pm1_0_count=25,
pm2_5_count=8, pm5_0_count=4, pm10_0_count=2, reserved=38656, checksum=783,
consuming exactly its 32 bytes with zero remaining; in general a
marker-prefixed buffer of at least 32 bytes decodes its next 30 bytes as 15
big-endian unsigned 16-bit fields in that fixed order. -/
theorem C4_golden_frame_decode :
    GOLDEN_PACKET.length = 32 ∧
    parse GOLDEN_PACKET = .ok ([], some goldenData) ∧
    goldenData = {
      frame_length := 28, pm1_cf1 := 3, pm2_5_cf1 := 4,
      pm10_cf1 := 7, pm1_atmo := 3, pm2_5_atmo := 4, pm10_atmo := 7,
      pm0_3_count := 720, pm0_5_count := 184, pm1_0_count := 25,
      pm2_5_count := 8, pm5_0_count := 4, pm10_0_count := 2,
      reserved := 38656, checksum := 783 } ∧
    ∀ (b1 b2 b3 b4 b5 b6 b7 b8 b9 b10 b11 b12 b13 b14 b15 b16 b17 b18 b19 b20 b21 b22 b23 b24 b25 b26 b27 b28 b29 b30 : Nat)
      (rest : List Nat),
      parse (0x42 :: 0x4d :: b1 :: b2 :: b3 :: b4 :: b5 :: b6 :: b7 :: b8 :: b9 :: b10 :: b11 :: b12 :: b13 :: b14 :: b15 :: b16 :: b17 :: b18 :: b19 :: b20 :: b21 :: b22 :: b23 :: b24 :: b25 :: b26 :: b27 :: b28 :: b29 :: b30 :: rest) =
        .ok (rest, some {
          frame_length := b1 * 256 + b2,
          pm1_cf1 := b3 * 256 + b4,
          pm2_5_cf1 := b5 * 256 + b6,
          pm10_cf1 := b7 * 256 + b8,
          pm1_atmo := b9 * 256 + b10,
          pm2_5_atmo := b11 * 256 + b12,
          pm10_atmo := b13 * 256 + b14,
          pm0_3_count := b15 * 256 + b16,
          pm0_5_count := b17 * 256 + b18,
          pm1_0_count := b19 * 256 + b20,
          pm2_5_count := b21 * 256 + b22,
          pm5_0_count := b23 * 256 + b24,
          pm10_0_count := b25 * 256 + b26,
          reserved := b27 * 256 + b28,
          checksum := b29 * 256 + b30 }) :=
  ⟨rfl, rfl, rfl, parse_frame⟩

/-- C5: a buffer whose available prefix already rules out the start marker
is answered with a skip consuming exactly 1 byte (a wrong first byte skips
immediately; "abc" skips to "bc"), while a buffer of 0 or 1 bytes that
could still become a marker prefix yields `NeedMoreBytes`, never a skip. -/
theorem C5_skip_behavior :
    (∀ (b : Nat) (rest : List Nat), b ≠ 0x42 →
      parse (b :: rest) = .ok (rest, none)) ∧
    (∀ (b : Nat) (rest : List Nat), b ≠ 0x4d →
      parse (0x42 :: b :: rest) = .ok (b :: rest, none)) ∧
    parse [0x61, 0x62, 0x63] = .ok ([0x62, 0x63], none) ∧
    parse [] = .error (.incomplete 2) ∧
    parse [0x42] = .error (.incomplete 1) :=
  ⟨fun _ rest hb => parse_skip1 rest hb,
   fun _ rest hb => parse_skip2 rest hb,
   rfl, rfl, rfl⟩

/-- Witness for C5 at the concrete input "abc". -/
theorem C5_witness : parse [0x61, 0x62, 0x63] = .ok ([0x62, 0x63], none) :=
  C5_skip_behavior.1 0x61 [0x62, 0x63] (by decide)

/-- C6: every concentration at or below 0 yields exactly 0, for every
breakpoint table. -/
theorem C6_nonpositive_returns_zero :
    ∀ (breakpoints : List (ℚ × ℚ)) (d : ℚ), d ≤ 0 →
      calculate_aqi breakpoints d = some 0 := by
  intro breakpoints d hd
  simp [calculate_aqi, hd]

/-- Witness for C6 at concentration -1 on the PM2.5 table. -/
theorem C6_witness : calculate_aqi AQI_PM2_5_BREAKPOINTS (-1) = some 0 :=
  C6_nonpositive_returns_zero AQI_PM2_5_BREAKPOINTS (-1) (by norm_num)

/-- C9: `parse` never returns `Err::Error` (`MalformedInput`): every
invocation yields a frame, a skip, or `Incomplete`. -/
theorem C9_no_malformed_input :
    ∀ input : List Nat,
      (∃ rem d, parse input = .ok (rem, some d)) ∨
      (∃ rem, parse input = .ok (rem, none)) ∨
      (∃ n, parse input = .error (.incomplete n)) := by
  intro input
  rcases hp : parse input with e | p
  · cases e with
    | incomplete n => exact Or.inr (Or.inr ⟨n, rfl⟩)
    | failed => exact absurd hp (parse_ne_failed input)
  · obtain ⟨rem, od⟩ := p
    cases od with
    | some d => exact Or.inl ⟨rem, d, rfl⟩
    | none => exact Or.inr (Or.inl ⟨rem, rfl⟩)

/-- C10: every successful `parse` consumes at least one byte, exactly 32 on
a decoded frame and exactly 1 on a skip, and never more than the buffer
holds, so the inner loop of `read_active` strictly shrinks its buffer on
every successful step (this bound also discharges the termination proof of
`drain`, the model of that loop). -/
theorem C10_decode_consumption :
    ∀ (input rem : List Nat) (od : Option PmsData),
      parse input = .ok (rem, od) →
      rem.length < input.length ∧
      (od = none → input.length = rem.length + 1) ∧
      (∀ d, od = some d → input.length = rem.length + 32) := by
  intro input rem od h
  exact ⟨parse_ok_length_lt h, (parse_ok_length h).1, (parse_ok_length h).2⟩

/-- Witness for C10 on the golden packet, which is consumed in full. -/
theorem C10_witness :
    ([] : List Nat).length < GOLDEN_PACKET.length ∧
    GOLDEN_PACKET.length = ([] : List Nat).length + 32 := by
  have h := C10_decode_consumption GOLDEN_PACKET [] (some goldenData) rfl
  exact ⟨h.1, h.2.2 goldenData rfl⟩

/-- C3 counterexample: on exactly the 2-byte marker, `parse` requests 2 more
bytes (the next 16-bit field), not the 30 bytes remaining of the frame. The
repository test `test_partial` asserts the same `Needed::Size(2)`. -/
theorem C3_counterexample :
    parse [0x42, 0x4d] = .error (.incomplete 2) ∧
      NomErr.incomplete 2 ≠ NomErr.incomplete 30 :=
  ⟨rfl, by decide⟩

/-- C3 amended: on a buffer that matches the start marker so far but holds
no complete frame, `parse` returns `Incomplete` carrying the bytes missing
from the current two-byte token (marker or 16-bit field): `2 - len` below
the marker length, otherwise 2 on an even remainder and 1 on an odd one —
between 1 and 2, not the bytes missing from the whole frame. -/
theorem C3_need_more_bytes_amended :
    (∀ input : List Nat, input.length < 2 →
      compareTag input START_MARKER ≠ .mismatch →
      parse input = .error (.incomplete (2 - input.length))) ∧
    (∀ rest : List Nat, rest.length < 30 →
      parse (START_MARKER ++ rest) = .error (.incomplete (2 - rest.length % 2))) := by
  constructor
  · intro input hlen hcmp
    match input with
    | [] => rfl
    | [b] =>
      by_cases hb : b = 0x42
      · subst hb; rfl
      · exact absurd (by simp [compareTag, START_MARKER, hb]) hcmp
    | b1 :: b2 :: t => simp only [List.length_cons] at hlen; omega
  · exact parse_marker_incomplete

/-- Witness for C3 on the bare marker. -/
theorem C3_witness : parse (START_MARKER ++ []) = .error (.incomplete 2) := by
  have h := C3_need_more_bytes_amended.2 [] (by norm_num)
  simpa using h

/-- C1: `read_active` does not retain the unconsumed remainder between
reads: each outer-loop iteration reads into the same buffer from index 0 and
parses only the bytes of that read, so a frame split across two reads is
silently lost. The golden packet delivered whole yields its frame; delivered
as two 16-byte reads it yields nothing, contradicting fragmentation
invariance and the retain-the-remainder contract. -/
theorem C1_reassembler_drops_remainder :
    goldenFirstHalf ++ goldenSecondHalf = GOLDEN_PACKET ∧
    read_frames [goldenFirstHalf ++ goldenSecondHalf] = [goldenData] ∧
    read_frames [goldenFirstHalf, goldenSecondHalf] = [] := by
  refine ⟨golden_split, ?_, ?_⟩
  · simp [read_frames, golden_split, drain_golden]
  · simp [read_frames, drain_goldenFirstHalf, drain_goldenSecondHalf]

/-- C8 counterexample: 0 and 1/25 both round to 0.0 at the tenths digit, yet
`calculate_aqi` returns 0 for the former and panics (modelled `none`) for
the latter, so the claim does not hold for every pair of concentrations in
the same rounding bucket. -/
theorem C8_counterexample :
    round_nearest_tenth 0 = round_nearest_tenth (1 / 25) ∧
    calculate_aqi AQI_PM2_5_BREAKPOINTS 0 = some 0 ∧
    calculate_aqi AQI_PM2_5_BREAKPOINTS (1 / 25) = none := by
  refine ⟨?_, ?_, ?_⟩
  · norm_num [round_nearest_tenth, roundHalfAway]
  · norm_num [calculate_aqi]
  · norm_num [calculate_aqi, bucket_pp, round_nearest_tenth, roundHalfAway,
      partition_point, AQI_PM2_5_BREAKPOINTS, List.takeWhile]

/-- C8 amended: for strictly positive concentrations, the result depends on
the concentration only through its rounding to the nearest tenth, so any two
positive concentrations in the same rounding bucket (such as 12.05 and 12.1)
get the same AQI. -/
theorem C8_rounding_bucket_amended :
    (∀ (bps : List (ℚ × ℚ)) (d1 d2 : ℚ), 0 < d1 → 0 < d2 →
      round_nearest_tenth d1 = round_nearest_tenth d2 →
      calculate_aqi bps d1 = calculate_aqi bps d2) ∧
    calculate_aqi AQI_PM2_5_BREAKPOINTS 12.05 =
      calculate_aqi AQI_PM2_5_BREAKPOINTS 12.1 := by
  have key : ∀ (bps : List (ℚ × ℚ)) (d1 d2 : ℚ), 0 < d1 → 0 < d2 →
      round_nearest_tenth d1 = round_nearest_tenth d2 →
      calculate_aqi bps d1 = calculate_aqi bps d2 := by
    intro bps d1 d2 h1 h2 hr
    simp only [calculate_aqi, if_neg (not_le.2 h1), if_neg (not_le.2 h2), hr]
  exact ⟨key, key AQI_PM2_5_BREAKPOINTS 12.05 12.1 (by norm_num) (by norm_num)
    (by norm_num [round_nearest_tenth, roundHalfAway])⟩

/-- Witness for C8 at the pair 12.05 and 12.1. -/
theorem C8_witness :
    calculate_aqi AQI_PM2_5_BREAKPOINTS 12.05 =
      calculate_aqi AQI_PM2_5_BREAKPOINTS 12.1 :=
  C8_rounding_bucket_amended.1 AQI_PM2_5_BREAKPOINTS 12.05 12.1 (by norm_num)
    (by norm_num) (by norm_num [round_nearest_tenth, roundHalfAway])

/-- C7: whenever `calculate_aqi` returns a value it is clamped to at most
500, the high bound of the last AQI range — for any breakpoint table — and
on the PM2.5 table every returned value also stays at or above 0, so results
lie on the 0-500 scale; far above the top breakpoint the value saturates:
a concentration of 1000000 yields exactly 500. -/
theorem C7_clamped_to_500 :
    (∀ (bps : List (ℚ × ℚ)) (d v : ℚ),
      calculate_aqi bps d = some v → v ≤ 500) ∧
    (∀ d v : ℚ, calculate_aqi AQI_PM2_5_BREAKPOINTS d = some v →
      0 ≤ v ∧ v ≤ 500) ∧
    calculate_aqi AQI_PM2_5_BREAKPOINTS 1000000 = some 500 := by
  have hle : ∀ (bps : List (ℚ × ℚ)) (d v : ℚ),
      calculate_aqi bps d = some v → v ≤ 500 := by
    intro bps d v h
    simp only [calculate_aqi] at h
    split_ifs at h with hd hpp
    all_goals first
    | (simp at h; done)
    | (simp only [Option.some.injEq] at h; subst h; norm_num)
    | (rcases hbp : bps.get? (bucket_pp bps (round_nearest_tenth d) - 1)
          with _ | bp
       · rw [hbp] at h
         simp at h
       · rcases hrg : AQI_RANGES.get?
             (bucket_pp bps (round_nearest_tenth d) - 1) with _ | rng
         · rw [hbp, hrg] at h
           simp at h
         · rw [hbp, hrg] at h
           simp only [Option.some.injEq] at h
           first
           | (rw [← h]; exact le_of_le_of_eq (min_le_right _ _) aqi_last_high)
           | (rw [h]; exact le_of_le_of_eq (min_le_right _ _) aqi_last_high))
  have hnn : ∀ d v : ℚ, calculate_aqi AQI_PM2_5_BREAKPOINTS d = some v →
      0 ≤ v := by
    intro d v h
    by_cases hd : d ≤ 0
    · simp only [calculate_aqi, if_pos hd, Option.some.injEq] at h
      subst h
      norm_num
    · push_neg at hd
      by_cases htz : round_nearest_tenth d = 0
      · rw [calculate_aqi_pm25_zero_round hd htz] at h
        exact absurd h (by simp)
      · have ht : 0 < round_nearest_tenth d :=
          lt_of_le_of_ne (round_nearest_tenth_nonneg hd) (Ne.symm htz)
        simp only [calculate_aqi] at h
        rw [if_neg (not_le.2 hd)] at h
        rcases pm25_partition _ ht with
          ⟨hpp, hb⟩ | ⟨hpp, ha, hb⟩ | ⟨hpp, ha, hb⟩ | ⟨hpp, ha, hb⟩ |
          ⟨hpp, ha, hb⟩ | ⟨hpp, ha, hb⟩ | ⟨hpp, ha⟩
        all_goals rw [hpp] at h
        all_goals norm_num [AQI_PM2_5_BREAKPOINTS, AQI_RANGES] at h
        all_goals first | rw [← h] | rw [h]
        all_goals refine le_min ?_ (by rw [aqi_last_high]; norm_num)
        all_goals linarith
  refine ⟨hle, fun d v h => ⟨hnn d v h, hle _ d v h⟩, ?_⟩
  norm_num [calculate_aqi, bucket_pp, round_nearest_tenth, roundHalfAway,
    partition_point, AQI_PM2_5_BREAKPOINTS, AQI_RANGES, aqi_clamp_max,
    List.takeWhile]

/-- Witness for C7 at concentration 37 on the PM2.5 table. -/
theorem C7_witness : (0:ℚ) ≤ 20834 / 199 ∧ (20834 / 199 : ℚ) ≤ 500 :=
  C7_clamped_to_500.2.1 37 (20834 / 199)
    (by norm_num [calculate_aqi, bucket_pp, round_nearest_tenth,
      roundHalfAway, partition_point, AQI_PM2_5_BREAKPOINTS, AQI_RANGES,
      aqi_clamp_max, List.takeWhile])

/-- C2 counterexample: the concentration 1/25 = 0.04 lies in (0, 0.05) and
rounds to 0.0, where the claimed clamp to bucket 0 does not exist in the
code: `partition_point` returns 0, the `usize` subtraction `0 - 1`
underflows, and `calculate_aqi` panics instead of returning a value
(modelled as `none`). -/
theorem C2_counterexample :
    (0:ℚ) < 1 / 25 ∧ (1 / 25 : ℚ) < 5 / 100 ∧
    round_nearest_tenth (1 / 25) = 0 ∧
    calculate_aqi AQI_PM2_5_BREAKPOINTS (1 / 25) = none := by
  refine ⟨by norm_num, by norm_num, ?_, ?_⟩
  · norm_num [round_nearest_tenth, roundHalfAway]
  · norm_num [calculate_aqi, bucket_pp, round_nearest_tenth, roundHalfAway,
      partition_point, AQI_PM2_5_BREAKPOINTS, List.takeWhile]

/-- A nonzero `partition_point` makes the lookup succeed: the index is in
range of both tables and `calculate_aqi` returns a value. -/
lemma calculate_aqi_pm25_pos_some {d : ℚ} (hd : 0 < d)
    (hpp : bucket_pp AQI_PM2_5_BREAKPOINTS (round_nearest_tenth d) ≠ 0)
    (hlt : bucket_pp AQI_PM2_5_BREAKPOINTS (round_nearest_tenth d) - 1 < 7) :
    ∃ v, calculate_aqi AQI_PM2_5_BREAKPOINTS d = some v := by
  simp only [calculate_aqi]
  rw [if_neg (not_le.2 hd), if_neg hpp]
  have h1 : AQI_PM2_5_BREAKPOINTS.length = 7 := by
    norm_num [AQI_PM2_5_BREAKPOINTS]
  have h2 : AQI_RANGES.length = 7 := by norm_num [AQI_RANGES]
  rw [List.get?_eq_get (by omega), List.get?_eq_get (by omega)]
  exact ⟨_, rfl⟩

/-- C2 amended: for a positive concentration whose rounded value is positive
(at least 0.1), the bucket index `partition_point(..) - 1` is the largest
index whose `low` bound is below the rounded value, it is in range, and a
value is returned; but for a positive concentration whose rounded value is
0.0 (for example any concentration in (0, 0.05)) there is no clamp to index
0: `partition_point` returns 0, the index subtraction underflows, and the
function panics (modelled `none`) instead of returning a value. -/
theorem C2_bucket_index_amended :
    ∀ d : ℚ, 0 < d →
      (round_nearest_tenth d = 0 →
        calculate_aqi AQI_PM2_5_BREAKPOINTS d = none) ∧
      (0 < round_nearest_tenth d →
        (∃ v, calculate_aqi AQI_PM2_5_BREAKPOINTS d = some v) ∧
        bucket_pp AQI_PM2_5_BREAKPOINTS (round_nearest_tenth d) - 1 < 7 ∧
        (AQI_PM2_5_BREAKPOINTS.getD
            (bucket_pp AQI_PM2_5_BREAKPOINTS (round_nearest_tenth d) - 1)
            (0, 0)).1 < round_nearest_tenth d ∧
        (∀ j, j < 7 →
          (AQI_PM2_5_BREAKPOINTS.getD j (0, 0)).1 < round_nearest_tenth d →
          j ≤ bucket_pp AQI_PM2_5_BREAKPOINTS (round_nearest_tenth d) - 1)) := by
  intro d hd
  refine ⟨fun htz => calculate_aqi_pm25_zero_round hd htz, fun ht => ?_⟩
  rcases pm25_partition _ ht with
    ⟨hpp, hb⟩ | ⟨hpp, ha, hb⟩ | ⟨hpp, ha, hb⟩ | ⟨hpp, ha, hb⟩ |
    ⟨hpp, ha, hb⟩ | ⟨hpp, ha, hb⟩ | ⟨hpp, ha⟩
  · rw [hpp]
    refine ⟨calculate_aqi_pm25_pos_some hd (by rw [hpp]; norm_num)
      (by rw [hpp]; norm_num), by norm_num, ?_, ?_⟩
    · exact ht
    · intro j hj hlow
      interval_cases j <;>
        norm_num [AQI_PM2_5_BREAKPOINTS, List.getD] at hlow ⊢ <;> linarith
  · rw [hpp]
    refine ⟨calculate_aqi_pm25_pos_some hd (by rw [hpp]; norm_num)
      (by rw [hpp]; norm_num), by norm_num, ?_, ?_⟩
    · exact ha
    · intro j hj hlow
      interval_cases j <;>
        norm_num [AQI_PM2_5_BREAKPOINTS, List.getD] at hlow ⊢ <;> linarith
  · rw [hpp]
    refine ⟨calculate_aqi_pm25_pos_some hd (by rw [hpp]; norm_num)
      (by rw [hpp]; norm_num), by norm_num, ?_, ?_⟩
    · exact ha
    · intro j hj hlow
      interval_cases j <;>
        norm_num [AQI_PM2_5_BREAKPOINTS, List.getD] at hlow ⊢ <;> linarith
  · rw [hpp]
    refine ⟨calculate_aqi_pm25_pos_some hd (by rw [hpp]; norm_num)
      (by rw [hpp]; norm_num), by norm_num, ?_, ?_⟩
    · exact ha
    · intro j hj hlow
      interval_cases j <;>
        norm_num [AQI_PM2_5_BREAKPOINTS, List.getD] at hlow ⊢ <;> linarith
  · rw [hpp]
    refine ⟨calculate_aqi_pm25_pos_some hd (by rw [hpp]; norm_num)
      (by rw [hpp]; norm_num), by norm_num, ?_, ?_⟩
    · exact ha
    · intro j hj hlow
      interval_cases j <;>
        norm_num [AQI_PM2_5_BREAKPOINTS, List.getD] at hlow ⊢ <;> linarith
  · rw [hpp]
    refine ⟨calculate_aqi_pm25_pos_some hd (by rw [hpp]; norm_num)
      (by rw [hpp]; norm_num), by norm_num, ?_, ?_⟩
    · exact ha
    · intro j hj hlow
      interval_cases j <;>
        norm_num [AQI_PM2_5_BREAKPOINTS, List.getD] at hlow ⊢ <;> linarith
  · rw [hpp]
    refine ⟨calculate_aqi_pm25_pos_some hd (by rw [hpp]; norm_num)
      (by rw [hpp]; norm_num), by norm_num, ?_, ?_⟩
    · exact ha
    · intro j hj hlow
      interval_cases j <;>
        norm_num [AQI_PM2_5_BREAKPOINTS, List.getD] at hlow ⊢ <;> linarith

/-- Witness for C2 at concentration 37, which rounds to 37.0 and lands in
bucket 2. -/
theorem C2_witness :
    ∃ v, calculate_aqi AQI_PM2_5_BREAKPOINTS 37 = some v :=
  ((C2_bucket_index_amended 37 (by norm_num)).2
    (by norm_num [round_nearest_tenth, roundHalfAway])).1
